import Mathlib

/-!
Verification of `scripts/json_qa_to_verl_sft_parquet.py`.

The script converts a QA dataset (JSON array or line-delimited JSON) into a
columnar (parquet) file.  It is a linear pipeline: an item reader
(`iter_items`), a row mapper (`make_row`) and a batched columnar writer
(`write_parquet`).  We embed each piece as a Lean function over an explicit
model of decoded Python/JSON values and prove the documented properties.

External libraries (`json`, `ijson`, `pyarrow`) are modelled at their
interface: JSON decoding is a parameter (`decode`) or a pre-decoded value,
and the parquet writer is a state recording the batches written and the
open/closed status of the file handle.
-/

namespace JsonQaToParquet

/-- Model of the Python values a decoded JSON record can hold.  `none` is
Python's `None` (the decoding of JSON `null`); JSON numbers are modelled by
integers, since the script never inspects numeric payloads. -/
inductive PyVal where
  | none
  | bool (b : Bool)
  | int (n : Int)
  | str (s : String)
  | list (xs : List PyVal)
  | dict (kvs : List (String × PyVal))

/-- Name of the Python type of a value, as `type(v)` would report it. -/
def PyVal.typeName : PyVal → String
  | .none => "NoneType"
  | .bool _ => "bool"
  | .int _ => "int"
  | .str _ => "str"
  | .list _ => "list"
  | .dict _ => "dict"

/-- Python's `v is None`. -/
def PyVal.isNone : PyVal → Bool
  | .none => true
  | _ => false

/-- Python's `isinstance(v, str)`. -/
def PyVal.isStr : PyVal → Bool
  | .str _ => true
  | _ => false

/-- A decoded input item: a Python dict from string keys to values
(insertion ordered, keys unique as produced by `json.loads`). -/
abbrev Record := List (String × PyVal)

/-- Python's `item.get(key)`.  A key that is absent and a key that is
present with value `None` are both reported as `None`, exactly the
conflation the script relies on. -/
def pyGet (item : Record) (k : String) : PyVal :=
  match item.lookup k with
  | some v => v
  | Option.none => PyVal.none

/-- Lexicographic comparison of char lists by code point, the order Python
uses to compare the strings in `sorted(...)`. -/
def lexLe : List Char → List Char → Bool
  | [], _ => true
  | _ :: _, [] => false
  | a :: as, b :: bs =>
    if a < b then true else if b < a then false else lexLe as bs

/-- String comparison by code points, as Python compares `str` values. -/
def strLe (a b : String) : Bool :=
  lexLe a.data b.data

/-- Insert a key into an already sorted list of keys. -/
def insortKey (x : String) : List String → List String
  | [] => [x]
  | y :: ys => if strLe x y then x :: y :: ys else y :: insortKey x ys

/-- Python's `sorted(item.keys())`: the record's keys in ascending
code-point order. -/
def sortedKeys (item : Record) : List String :=
  (item.map Prod.fst).foldr insortKey []

/-- One chat message, an element of the `messages` column. -/
structure Msg where
  role : String
  content : String
  deriving DecidableEq

/-- A mapped output row, in one of the two fixed output shapes. -/
inductive Row where
  | single_turn (question : String) (answer : String)
  | messages (msgs : List Msg)
  deriving DecidableEq

/-- The errors `make_row` can raise, with the data its messages carry:
`KeyError` names both designated keys and the sorted keys present,
`TypeError` names the types of both values, `ValueError` names the
unrecognized output format. -/
inductive MapErr where
  | missingKeys (input_key output_key : String) (got_keys : List String)
  | typeMismatch (q_type a_type : String)
  | unknownFormat (out_format : String)
  deriving DecidableEq

/-- The row mapper `make_row(item, input_key=…, output_key=…, out_format=…,
system_prompt=…)`.  It looks up the two designated fields, raises
`KeyError` when either is `None` (absent or null), raises `TypeError` when
either is not a string, and otherwise builds the row for the requested
output format; the system message is prepended only when `system_prompt`
is truthy (present and non-empty).  `formatRow` is the output-construction
tail of `make_row`, factored out: it receives the two validated string
values and builds the row for the requested format. -/
def formatRow (qs sa : String) (out_format : String)
    (system_prompt : Option String) : Except MapErr Row :=
  if out_format = "single_turn" then
    .ok (.single_turn qs sa)
  else if out_format = "messages" then
    let sysMsgs : List Msg :=
      match system_prompt with
      | some sp => if sp.isEmpty then [] else [⟨"system", sp⟩]
      | Option.none => []
    .ok (.messages (sysMsgs ++ [⟨"user", qs⟩, ⟨"assistant", sa⟩]))
  else
    .error (.unknownFormat out_format)

/-- Validation part of `make_row`: look up the two designated fields,
raise `KeyError` when either is `None`, raise `TypeError` when either is
not a string, then hand the two strings to `formatRow`. -/
def make_row (item : Record) (input_key output_key : String)
    (out_format : String) (system_prompt : Option String) : Except MapErr Row :=
  let q := pyGet item input_key
  let a := pyGet item output_key
  if q.isNone || a.isNone then
    .error (.missingKeys input_key output_key (sortedKeys item))
  else
    match q, a with
    | .str qs, .str sa => formatRow qs sa out_format system_prompt
    | _, _ =>
      .error (.typeMismatch q.typeName a.typeName)

/-- The errors `iter_items` can raise: an array element (or a decoded line)
that is not a dict, a file beginning with `[` whose parse is not a list,
and a line that fails to decode (identified by its stripped content). -/
inductive ReaderErr where
  | notDict (type_name : String)
  | notArray
  | parse (line : String)
  deriving DecidableEq

/-- The JSON-array branch of `iter_items`, applied to the elements the JSON
parse produced: yield each element in order, failing on the first element
that is not a dict.  Both the `json.load` path and the `ijson` streaming
path behave this way. -/
def collectDicts : List PyVal → Except ReaderErr (List Record)
  | [] => .ok []
  | v :: vs =>
    match v with
    | .dict d =>
      match collectDicts vs with
      | .ok ds => .ok (d :: ds)
      | .error e => .error e
    | _ => .error (.notDict v.typeName)

/-- `iter_items` on a file whose first non-whitespace byte is `[`, applied
to the decoded top-level JSON value: it must be a list, and every element
must be a dict. -/
def iter_items_array : PyVal → Except ReaderErr (List Record)
  | .list items => collectDicts items
  | _ => .error .notArray

/-- The whitespace characters Python's `bytes.strip()` removes. -/
def pyWS (c : Char) : Bool :=
  c = ' ' || c = '\t' || c = '\n' || c = '\r' || c = '\x0b' || c = '\x0c'

/-- `line.strip()` on a list of characters. -/
def stripChars (l : List Char) : List Char :=
  ((l.dropWhile pyWS).reverse.dropWhile pyWS).reverse

/-- Python's `line.strip()`. -/
def pyStrip (s : String) : String :=
  String.mk (stripChars s.data)

/-- The line-delimited branch of `iter_items`: strip each line, skip it if
blank, otherwise decode it (`decode` models `json.loads`, which is stdlib
code outside this repository) and yield the resulting dict, failing if the
line does not decode or does not decode to a dict. -/
def iter_items_lines (decode : String → Except String PyVal) :
    List String → Except ReaderErr (List Record)
  | [] => .ok []
  | line :: rest =>
    let s := pyStrip line
    if s.isEmpty then iter_items_lines decode rest
    else
      match decode s with
      | .error _ => .error (.parse s)
      | .ok v =>
        match v with
        | .dict d =>
          match iter_items_lines decode rest with
          | .ok ds => .ok (d :: ds)
          | .error e => .error e
        | _ => .error (.notDict v.typeName)

/-- Map a list of records through `make_row`, stopping at the first
failure: the sequence of rows the mapper yields to the writer. -/
def mapRows (input_key output_key out_format : String)
    (system_prompt : Option String) : List Record → Except MapErr (List Row)
  | [] => .ok []
  | r :: rs =>
    match make_row r input_key output_key out_format system_prompt with
    | .error e => .error e
    | .ok row =>
      match mapRows input_key output_key out_format system_prompt rs with
      | .error e => .error e
      | .ok rows => .ok (row :: rows)

/-- Errors that can surface inside `write_parquet`: one raised by the
reader while pulling the next item, one raised by `make_row`, or an I/O
error raised by the parquet writer during a flush. -/
inductive PErr where
  | fromReader (e : ReaderErr)
  | fromMapper (e : MapErr)
  | io
  deriving DecidableEq

/-- Observable state of the columnar writer: the batches written to the
file so far, whether the `ParquetWriter` handle was ever created
(`opened`), whether it was closed, and the `total` counter. -/
structure WState where
  batches : List (List Row)
  opened : Bool
  closed : Bool
  total : Nat
  deriving DecidableEq

/-- The writer state before any row is processed. -/
def initW : WState :=
  { batches := [], opened := false, closed := false, total := 0 }

/-- The inner `flush()` of `write_parquet`: an empty buffer is a no-op;
otherwise the `ParquetWriter` is created if this is the first flush, and
the batch is appended and counted.  `ioFail n` models `write_table`
raising an I/O error on the n-th write (the handle is already open when
that happens). -/
def flushW (ioFail : Nat → Bool) (buf : List Row) (st : WState) :
    Option PErr × WState :=
  if buf.isEmpty then (Option.none, st)
  else
    let st1 : WState := { st with opened := true }
    if ioFail st1.batches.length then (some .io, st1)
    else
      (Option.none,
        { st1 with batches := st1.batches ++ [buf], total := st1.total + buf.length })

/-- The `for it in iter_items(...)` loop of `write_parquet`: map each
record to a row, buffer it, and flush whenever the buffer reaches
`batch_size`.  Returns the error that aborted the loop (if any), the
remaining buffer, and the writer state. -/
def wLoop (input_key output_key out_format : String)
    (system_prompt : Option String) (ioFail : Nat → Bool) (batch_size : Nat) :
    List Record → List Row → WState → Option PErr × List Row × WState
  | [], buf, st => (Option.none, buf, st)
  | r :: rest, buf, st =>
    match make_row r input_key output_key out_format system_prompt with
    | .error e => (some (.fromMapper e), buf, st)
    | .ok row =>
      let buf1 := buf ++ [row]
      if batch_size ≤ buf1.length then
        match flushW ioFail buf1 st with
        | (some e, st1) => (some e, buf1, st1)
        | (Option.none, st1) =>
          wLoop input_key output_key out_format system_prompt ioFail batch_size
            rest [] st1
      else
        wLoop input_key output_key out_format system_prompt ioFail batch_size
          rest buf1 st

/-- The `finally` block of `write_parquet`: close the writer handle if it
was ever opened. -/
def closeIfOpen (st : WState) : WState :=
  if st.opened then { st with closed := true } else st

/-- The body of `write_parquet`'s `try` block.  The reader's lazy item
sequence is modelled as the records it yields (`recs`) followed by an
optional error it raises when the next item is pulled (`readerTail`); an
error from the loop or from the reader skips the final flush.  Returns the
function's result (total row count or the propagated error) and the writer
state before the `finally` block runs. -/
def write_parquet_body (input_key output_key out_format : String)
    (system_prompt : Option String) (ioFail : Nat → Bool) (batch_size : Nat)
    (recs : List Record) (readerTail : Option ReaderErr) :
    Except PErr Nat × WState :=
  match wLoop input_key output_key out_format system_prompt ioFail batch_size
      recs [] initW with
  | (some e, _, st) => (.error e, st)
  | (Option.none, buf, st) =>
    match readerTail with
    | some e => (.error (.fromReader e), st)
    | Option.none =>
      match flushW ioFail buf st with
      | (some e, st1) => (.error e, st1)
      | (Option.none, st1) => (.ok st1.total, st1)

/-- `write_parquet`: run the buffered conversion loop and, on every exit
path (`finally`), close the writer handle if it was opened. -/
def write_parquet (input_key output_key out_format : String)
    (system_prompt : Option String) (ioFail : Nat → Bool) (batch_size : Nat)
    (recs : List Record) (readerTail : Option ReaderErr) :
    Except PErr Nat × WState :=
  let r := write_parquet_body input_key output_key out_format system_prompt
    ioFail batch_size recs readerTail
  (r.1, closeIfOpen r.2)

/-- A run in which the parquet library raises no I/O error. -/
def noIoErr : Nat → Bool := fun _ => false

/-! ## Basic facts about the mapper -/

lemma make_row_eq_formatRow {item : Record} {input_key output_key : String}
    {qs sa : String} (out_format : String) (system_prompt : Option String)
    (hq : pyGet item input_key = .str qs) (ha : pyGet item output_key = .str sa) :
    make_row item input_key output_key out_format system_prompt =
      formatRow qs sa out_format system_prompt := by
  simp [make_row, hq, ha, PyVal.isNone]

lemma make_row_strings {item : Record} {input_key output_key out_format : String}
    {system_prompt : Option String} {row : Row}
    (h : make_row item input_key output_key out_format system_prompt = .ok row) :
    ∃ qs sa, pyGet item input_key = .str qs ∧ pyGet item output_key = .str sa := by
  cases hq : pyGet item input_key <;> cases ha : pyGet item output_key <;>
    first
      | exact ⟨_, _, rfl, rfl⟩
      | simp [make_row, hq, ha, PyVal.isNone] at h

/-! ## Claims about the Row Mapper -/

/-- Claim C1: for every Record in which both designated fields are present
with string values, mapping with output shape `single_turn` returns exactly
the pair `{question: q, answer: a}` with the values copied verbatim, for
every choice of system prompt. -/
theorem single_turn_is_identity_pair (item : Record)
    (input_key output_key : String) (system_prompt : Option String)
    (q a : String)
    (hq : pyGet item input_key = .str q) (ha : pyGet item output_key = .str a) :
    make_row item input_key output_key "single_turn" system_prompt =
      .ok (.single_turn q a) := by
  rw [make_row_eq_formatRow "single_turn" system_prompt hq ha]
  rfl

/-- Witness for C1 at the spec's end-to-end example record. -/
theorem single_turn_is_identity_pair_witness :
    make_row [("question", .str "2+2?"), ("response", .str "4")]
      "question" "response" "single_turn" Option.none =
      .ok (.single_turn "2+2?" "4") :=
  single_turn_is_identity_pair _ "question" "response" Option.none
    "2+2?" "4" rfl rfl

/-- Claim C2: for every Record with both designated string fields present,
the `messages` shape yields `[user: q, assistant: a]` when the system
prompt is absent or empty, and `[system: p, user: q, assistant: a]` when a
non-empty prompt `p` is configured, in that order. -/
theorem messages_shape (item : Record) (input_key output_key : String)
    (q a : String)
    (hq : pyGet item input_key = .str q) (ha : pyGet item output_key = .str a) :
    (make_row item input_key output_key "messages" Option.none =
      .ok (.messages [⟨"user", q⟩, ⟨"assistant", a⟩])) ∧
    (make_row item input_key output_key "messages" (some "") =
      .ok (.messages [⟨"user", q⟩, ⟨"assistant", a⟩])) ∧
    (∀ p : String, p ≠ "" →
      make_row item input_key output_key "messages" (some p) =
        .ok (.messages [⟨"system", p⟩, ⟨"user", q⟩, ⟨"assistant", a⟩])) := by
  refine ⟨?_, ?_, ?_⟩
  · rw [make_row_eq_formatRow "messages" Option.none hq ha]; rfl
  · rw [make_row_eq_formatRow "messages" (some "") hq ha]; rfl
  · intro p hp
    rw [make_row_eq_formatRow "messages" (some p) hq ha]
    have hpe : p.isEmpty = false := by
      rcases h : p.isEmpty with _ | _
      · rfl
      · exact absurd ((String.isEmpty_iff p).mp h) hp
    simp [formatRow, hpe]

/-- Witness for C2 at a concrete record, with prompt absent, empty and
non-empty. -/
theorem messages_shape_witness :
    (make_row [("question", .str "2+2?"), ("response", .str "4")]
      "question" "response" "messages" Option.none =
      .ok (.messages [⟨"user", "2+2?"⟩, ⟨"assistant", "4"⟩])) ∧
    (make_row [("question", .str "2+2?"), ("response", .str "4")]
      "question" "response" "messages" (some "") =
      .ok (.messages [⟨"user", "2+2?"⟩, ⟨"assistant", "4"⟩])) ∧
    (make_row [("question", .str "2+2?"), ("response", .str "4")]
      "question" "response" "messages" (some "You are terse.") =
      .ok (.messages [⟨"system", "You are terse."⟩, ⟨"user", "2+2?"⟩,
        ⟨"assistant", "4"⟩])) := by
  have h := messages_shape [("question", .str "2+2?"), ("response", .str "4")]
    "question" "response" "2+2?" "4" rfl rfl
  exact ⟨h.1, h.2.1, h.2.2 "You are terse." (by decide)⟩

/-- Claim C3: for every Record in which either designated field is absent
or null, `make_row` fails with the `KeyError` naming both designated field
names and the sorted keys present, whatever the output format and system
prompt; this check precedes the string-type check, so it fires even when
the other field holds a non-string. -/
theorem missing_field_error (item : Record)
    (input_key output_key out_format : String) (system_prompt : Option String)
    (h : pyGet item input_key = PyVal.none ∨ pyGet item output_key = PyVal.none) :
    make_row item input_key output_key out_format system_prompt =
      .error (.missingKeys input_key output_key (sortedKeys item)) := by
  rcases h with h | h <;> simp [make_row, h, PyVal.isNone]

/-- Witness for C3: one designated field null, the other a non-string; the
error is still `KeyError` with both names and the sorted key set. -/
theorem missing_field_error_witness :
    make_row [("b", PyVal.int 3), ("a", PyVal.none)]
      "a" "b" "single_turn" Option.none =
      .error (.missingKeys "a" "b" ["a", "b"]) :=
  missing_field_error [("b", PyVal.int 3), ("a", PyVal.none)]
    "a" "b" "single_turn" Option.none (Or.inl rfl)

/-- Claim C4: for every Record in which both designated fields are present
and non-null but at least one value is not a string, `make_row` fails with
the `TypeError` naming the actual types of both values. -/
theorem type_mismatch_error (item : Record)
    (input_key output_key out_format : String) (system_prompt : Option String)
    (hqn : (pyGet item input_key).isNone = false)
    (han : (pyGet item output_key).isNone = false)
    (hns : ((pyGet item input_key).isStr && (pyGet item output_key).isStr) = false) :
    make_row item input_key output_key out_format system_prompt =
      .error (.typeMismatch (pyGet item input_key).typeName
        (pyGet item output_key).typeName) := by
  cases hq : pyGet item input_key <;> cases ha : pyGet item output_key <;>
    simp_all [make_row, PyVal.isNone, PyVal.isStr]

/-- Witness for C4: the input field holds a number, the output field a
string; the failure is the type error naming `int` and `str`. -/
theorem type_mismatch_error_witness :
    make_row [("q", PyVal.int 3), ("r", PyVal.str "a")]
      "q" "r" "single_turn" Option.none =
      .error (.typeMismatch "int" "str") :=
  type_mismatch_error [("q", PyVal.int 3), ("r", PyVal.str "a")]
    "q" "r" "single_turn" Option.none rfl rfl rfl

/-- Claim C10: the row produced by the mapper depends only on the values
of the two designated fields (plus format and system prompt): two Records
agreeing on those values map to the same successful Row, whatever other
keys either contains. -/
theorem row_depends_only_on_designated_fields (item1 item2 : Record)
    (input_key output_key out_format : String) (system_prompt : Option String)
    (row : Row)
    (h1 : pyGet item1 input_key = pyGet item2 input_key)
    (h2 : pyGet item1 output_key = pyGet item2 output_key)
    (hr : make_row item1 input_key output_key out_format system_prompt = .ok row) :
    make_row item2 input_key output_key out_format system_prompt = .ok row := by
  obtain ⟨qs, sa, hq, ha⟩ := make_row_strings hr
  rw [make_row_eq_formatRow out_format system_prompt hq ha] at hr
  rw [make_row_eq_formatRow out_format system_prompt (h1 ▸ hq) (h2 ▸ ha)]
  exact hr

/-- Witness for C10: two records with the same designated values but
different extra keys produce the same row. -/
theorem row_depends_only_on_designated_fields_witness :
    make_row [("question", .str "2+2?"), ("response", .str "4"),
        ("meta", PyVal.dict [("id", PyVal.int 7)])]
      "question" "response" "single_turn" Option.none =
      .ok (.single_turn "2+2?" "4") :=
  row_depends_only_on_designated_fields
    [("question", .str "2+2?"), ("response", .str "4")]
    [("question", .str "2+2?"), ("response", .str "4"),
      ("meta", PyVal.dict [("id", PyVal.int 7)])]
    "question" "response" "single_turn" Option.none
    (.single_turn "2+2?" "4") rfl rfl rfl

/-! ## Claims about the Item Reader -/

lemma iter_items_lines_of_encoded (decode : String → Except String PyVal)
    (enc : Record → String) :
    ∀ rs : List Record,
    (∀ r ∈ rs, (pyStrip (enc r)).isEmpty = false) →
    (∀ r ∈ rs, decode (pyStrip (enc r)) = .ok (.dict r)) →
    iter_items_lines decode (rs.map enc) = .ok rs := by
  intro rs
  induction rs with
  | nil => intro _ _; rfl
  | cons r rest ih =>
    intro hne hdec
    have h1 := hne r (List.mem_cons_self r rest)
    have h2 := hdec r (List.mem_cons_self r rest)
    have ih1 := ih (fun x hx => hne x (List.mem_cons_of_mem r hx))
      (fun x hx => hdec x (List.mem_cons_of_mem r hx))
    simp [iter_items_lines, h1, h2, ih1]

lemma collectDicts_map_dict : ∀ rs : List Record,
    collectDicts (rs.map PyVal.dict) = .ok rs := by
  intro rs
  induction rs with
  | nil => rfl
  | cons r rest ih => simp [collectDicts, ih]

/-- Claim C8: a JSON-array input and a line-delimited input holding the
same logical records give the reader the same ordered record sequence, so
the pipeline output downstream is identical.  `enc` is the line serializer
and `decode` the line decoder (`json.loads`); the hypotheses say each
serialized record is a non-blank line that decodes back to that record. -/
theorem reader_shape_equivalence (rs : List Record)
    (decode : String → Except String PyVal) (enc : Record → String)
    (hne : ∀ r ∈ rs, (pyStrip (enc r)).isEmpty = false)
    (hdec : ∀ r ∈ rs, decode (pyStrip (enc r)) = .ok (.dict r)) :
    iter_items_lines decode (rs.map enc) = .ok rs ∧
    iter_items_array (.list (rs.map PyVal.dict)) = .ok rs := by
  exact ⟨iter_items_lines_of_encoded decode enc rs hne hdec,
    collectDicts_map_dict rs⟩

/-- Witness for C8 at a one-record dataset with concrete serializer and
decoder. -/
theorem reader_shape_equivalence_witness :
    iter_items_lines
      (fun s => if s = "L" then .ok (.dict [("q", PyVal.str "x")]) else .error "bad")
      ([[("q", PyVal.str "x")]].map (fun _ => "L")) =
      .ok [[("q", PyVal.str "x")]] ∧
    iter_items_array (.list ([[("q", PyVal.str "x")]].map PyVal.dict)) =
      .ok [[("q", PyVal.str "x")]] :=
  reader_shape_equivalence [[("q", PyVal.str "x")]]
    (fun s => if s = "L" then .ok (.dict [("q", PyVal.str "x")]) else .error "bad")
    (fun _ => "L")
    (fun _ _ => rfl)
    (by
      intro r hr
      rw [List.mem_singleton] at hr
      subst hr
      rfl)

/-- Claim C9: in line-delimited mode the reader skips every blank line (a
line that strips to the empty string), so the result on any line list is
the result on the same list with the blank lines removed: blank lines
change neither the count nor the order of the records produced. -/
theorem blank_lines_skipped (decode : String → Except String PyVal)
    (lines : List String) :
    iter_items_lines decode lines =
      iter_items_lines decode
        (lines.filter (fun l => !(pyStrip l).isEmpty)) := by
  induction lines with
  | nil => rfl
  | cons l rest ih =>
    cases h : (pyStrip l).isEmpty with
    | true => simp [iter_items_lines, List.filter_cons, h, ih]
    | false => simp [iter_items_lines, List.filter_cons, h, ih]

/-! ## Claims about the Columnar Writer -/

lemma closeIfOpen_opened (st : WState) :
    (closeIfOpen st).opened = st.opened := by
  unfold closeIfOpen
  split <;> rfl

lemma closeIfOpen_batches (st : WState) :
    (closeIfOpen st).batches = st.batches := by
  unfold closeIfOpen
  split <;> rfl

lemma mapRows_length (input_key output_key out_format : String)
    (system_prompt : Option String) :
    ∀ (recs : List Record) (rows : List Row),
    mapRows input_key output_key out_format system_prompt recs = .ok rows →
    rows.length = recs.length := by
  intro recs
  induction recs with
  | nil =>
    intro rows h
    simp [mapRows] at h
    simp [← h]
  | cons r rest ih =>
    intro rows h
    cases hmk : make_row r input_key output_key out_format system_prompt with
    | error e => simp [mapRows, hmk] at h
    | ok row =>
      cases hmr : mapRows input_key output_key out_format system_prompt rest with
      | error e => simp [mapRows, hmk, hmr] at h
      | ok rows1 =>
        simp [mapRows, hmk, hmr] at h
        simp [← h, ih rows1 hmr]

lemma flushW_noFail (buf : List Row) (st : WState) :
    flushW noIoErr buf st =
      (Option.none,
        { st with
          opened := st.opened || !buf.isEmpty,
          batches := if buf.isEmpty then st.batches else st.batches ++ [buf],
          total := st.total + (if buf.isEmpty then 0 else buf.length) }) := by
  cases buf with
  | nil => simp [flushW]
  | cons b bs => simp [flushW, noIoErr]

lemma wLoop_noFail (input_key output_key out_format : String)
    (system_prompt : Option String) (batch_size : Nat) :
    ∀ (recs : List Record) (rows : List Row) (buf : List Row) (st : WState),
    mapRows input_key output_key out_format system_prompt recs = .ok rows →
    ∃ (buf1 : List Row) (st1 : WState),
      wLoop input_key output_key out_format system_prompt noIoErr batch_size
          recs buf st = (Option.none, buf1, st1) ∧
      st1.batches.flatten ++ buf1 = st.batches.flatten ++ buf ++ rows ∧
      st1.total + buf1.length = st.total + buf.length + rows.length := by
  intro recs
  induction recs with
  | nil =>
    intro rows buf st h
    simp [mapRows] at h
    refine ⟨buf, st, by simp [wLoop], ?_, ?_⟩ <;> simp [← h]
  | cons r rest ih =>
    intro rows buf st h
    cases hmk : make_row r input_key output_key out_format system_prompt with
    | error e => simp [mapRows, hmk] at h
    | ok row =>
      cases hmr : mapRows input_key output_key out_format system_prompt rest with
      | error e => simp [mapRows, hmk, hmr] at h
      | ok rows1 =>
        simp only [mapRows, hmk, hmr] at h
        injection h with h
        subst h
        by_cases hbs : batch_size ≤ (buf ++ [row]).length
        · obtain ⟨buf1, st1, heq, h2, h3⟩ := ih rows1 []
            { st with
              opened := st.opened || !(buf ++ [row]).isEmpty,
              batches := if (buf ++ [row]).isEmpty then st.batches
                else st.batches ++ [buf ++ [row]],
              total := st.total +
                (if (buf ++ [row]).isEmpty then 0 else (buf ++ [row]).length) }
            hmr
          refine ⟨buf1, st1, ?_, ?_, ?_⟩
          · simp only [wLoop, hmk, if_pos hbs, flushW_noFail]
            exact heq
          · rw [h2]
            simp
          · rw [h3]
            simp
            omega
        · obtain ⟨buf1, st1, heq, h2, h3⟩ := ih rows1 (buf ++ [row]) st hmr
          refine ⟨buf1, st1, ?_, ?_, ?_⟩
          · simp only [wLoop, hmk, if_neg hbs]
            exact heq
          · rw [h2]
            simp
          · rw [h3]
            simp
            omega

lemma write_parquet_noFail_spec (input_key output_key out_format : String)
    (system_prompt : Option String) (batch_size : Nat)
    (recs : List Record) (rows : List Row)
    (h : mapRows input_key output_key out_format system_prompt recs = .ok rows) :
    (write_parquet input_key output_key out_format system_prompt noIoErr
      batch_size recs Option.none).1 = .ok rows.length ∧
    (write_parquet input_key output_key out_format system_prompt noIoErr
      batch_size recs Option.none).2.batches.flatten = rows := by
  obtain ⟨buf1, st1, heq, h2, h3⟩ :=
    wLoop_noFail input_key output_key out_format system_prompt batch_size
      recs rows [] initW h
  have hbody : write_parquet_body input_key output_key out_format system_prompt
      noIoErr batch_size recs Option.none =
      (.ok (st1.total + (if buf1.isEmpty then 0 else buf1.length)),
        { st1 with
          opened := st1.opened || !buf1.isEmpty,
          batches := if buf1.isEmpty then st1.batches else st1.batches ++ [buf1],
          total := st1.total + (if buf1.isEmpty then 0 else buf1.length) }) := by
    simp only [write_parquet_body, heq, flushW_noFail]
  simp [initW] at h2 h3
  constructor
  · simp only [write_parquet, hbody]
    cases hbuf : buf1.isEmpty with
    | true =>
      have : buf1 = [] := by simpa [List.isEmpty_iff] using hbuf
      subst this
      simp at h2 h3
      simp [hbuf]
      omega
    | false =>
      simp [hbuf]
      omega
  · simp only [write_parquet, hbody, closeIfOpen_batches]
    cases hbuf : buf1.isEmpty with
    | true =>
      have : buf1 = [] := by simpa [List.isEmpty_iff] using hbuf
      subst this
      simpa using h2
    | false =>
      simp [hbuf, ← h2]

/-- Claim C5: batching is transparent.  For the same valid record sequence
and any two positive batch sizes, `write_parquet` reports the same total
row count and writes the same rows in the same order. -/
theorem batching_transparent (input_key output_key out_format : String)
    (system_prompt : Option String) (b1 b2 : Nat)
    (_hb1 : 1 ≤ b1) (_hb2 : 1 ≤ b2)
    (recs : List Record) (rows : List Row)
    (h : mapRows input_key output_key out_format system_prompt recs = .ok rows) :
    (write_parquet input_key output_key out_format system_prompt noIoErr
        b1 recs Option.none).1 =
      (write_parquet input_key output_key out_format system_prompt noIoErr
        b2 recs Option.none).1 ∧
    (write_parquet input_key output_key out_format system_prompt noIoErr
        b1 recs Option.none).2.batches.flatten =
      (write_parquet input_key output_key out_format system_prompt noIoErr
        b2 recs Option.none).2.batches.flatten := by
  obtain ⟨p1, q1⟩ := write_parquet_noFail_spec input_key output_key out_format
    system_prompt b1 recs rows h
  obtain ⟨p2, q2⟩ := write_parquet_noFail_spec input_key output_key out_format
    system_prompt b2 recs rows h
  exact ⟨p1.trans p2.symm, q1.trans q2.symm⟩

/-- Witness for C5: three records, batch sizes 1 and 7 give the same
result and the same ordered row content. -/
theorem batching_transparent_witness :
    ((write_parquet "question" "response" "single_turn" Option.none noIoErr 1
        [[("question", PyVal.str "q1"), ("response", PyVal.str "a1")],
         [("question", PyVal.str "q2"), ("response", PyVal.str "a2")],
         [("question", PyVal.str "q3"), ("response", PyVal.str "a3")]]
        Option.none).1 =
      (write_parquet "question" "response" "single_turn" Option.none noIoErr 7
        [[("question", PyVal.str "q1"), ("response", PyVal.str "a1")],
         [("question", PyVal.str "q2"), ("response", PyVal.str "a2")],
         [("question", PyVal.str "q3"), ("response", PyVal.str "a3")]]
        Option.none).1) ∧
    ((write_parquet "question" "response" "single_turn" Option.none noIoErr 1
        [[("question", PyVal.str "q1"), ("response", PyVal.str "a1")],
         [("question", PyVal.str "q2"), ("response", PyVal.str "a2")],
         [("question", PyVal.str "q3"), ("response", PyVal.str "a3")]]
        Option.none).2.batches.flatten =
      (write_parquet "question" "response" "single_turn" Option.none noIoErr 7
        [[("question", PyVal.str "q1"), ("response", PyVal.str "a1")],
         [("question", PyVal.str "q2"), ("response", PyVal.str "a2")],
         [("question", PyVal.str "q3"), ("response", PyVal.str "a3")]]
        Option.none).2.batches.flatten) :=
  batching_transparent "question" "response" "single_turn" Option.none 1 7
    (by decide) (by decide)
    [[("question", PyVal.str "q1"), ("response", PyVal.str "a1")],
     [("question", PyVal.str "q2"), ("response", PyVal.str "a2")],
     [("question", PyVal.str "q3"), ("response", PyVal.str "a3")]]
    [.single_turn "q1" "a1", .single_turn "q2" "a2", .single_turn "q3" "a3"]
    rfl

/-- Claim C6: on every exit path of `write_parquet` — normal completion, a
reader or mapper error mid-iteration, or an I/O error during a flush — if
the output handle was opened it is closed before the function returns or
the error propagates. -/
theorem handle_closed_on_every_exit (input_key output_key out_format : String)
    (system_prompt : Option String) (ioFail : Nat → Bool) (batch_size : Nat)
    (recs : List Record) (readerTail : Option ReaderErr)
    (h : (write_parquet input_key output_key out_format system_prompt ioFail
      batch_size recs readerTail).2.opened = true) :
    (write_parquet input_key output_key out_format system_prompt ioFail
      batch_size recs readerTail).2.closed = true := by
  simp only [write_parquet] at h ⊢
  rw [closeIfOpen_opened] at h
  simp [closeIfOpen, h]

/-- Witness for C6 on an error path: the reader raises after one record
was flushed, so the handle was opened, the error propagates, and the
handle is closed. -/
theorem handle_closed_on_every_exit_witness :
    (write_parquet "question" "response" "single_turn" Option.none noIoErr 1
        [[("question", PyVal.str "q"), ("response", PyVal.str "a")]]
        (some (.parse "oops"))).2.opened = true ∧
    (write_parquet "question" "response" "single_turn" Option.none noIoErr 1
        [[("question", PyVal.str "q"), ("response", PyVal.str "a")]]
        (some (.parse "oops"))).2.closed = true :=
  ⟨rfl,
    handle_closed_on_every_exit "question" "response" "single_turn"
      Option.none noIoErr 1
      [[("question", PyVal.str "q"), ("response", PyVal.str "a")]]
      (some (.parse "oops")) rfl⟩

/-- Claim C7: `write_parquet` opens the output lazily, so zero records
leave the file uncreated, and for `N` valid input records it returns
exactly `N`. -/
theorem lazy_open_and_total_count (input_key output_key out_format : String)
    (system_prompt : Option String) (batch_size : Nat)
    (recs : List Record) (rows : List Row)
    (h : mapRows input_key output_key out_format system_prompt recs = .ok rows) :
    (write_parquet input_key output_key out_format system_prompt noIoErr
      batch_size recs Option.none).1 = .ok recs.length ∧
    (recs = [] →
      (write_parquet input_key output_key out_format system_prompt noIoErr
        batch_size recs Option.none).2.opened = false) := by
  obtain ⟨p, _⟩ := write_parquet_noFail_spec input_key output_key out_format
    system_prompt batch_size recs rows h
  refine ⟨?_, ?_⟩
  · rw [p, mapRows_length input_key output_key out_format system_prompt
      recs rows h]
  · intro hrec
    subst hrec
    rfl

/-- Witness for C7: an empty input returns 0 and never opens the file; two
valid records return 2. -/
theorem lazy_open_and_total_count_witness :
    ((write_parquet "question" "response" "single_turn" Option.none noIoErr
        4096 [] Option.none).1 = .ok 0 ∧
      (write_parquet "question" "response" "single_turn" Option.none noIoErr
        4096 [] Option.none).2.opened = false) ∧
    (write_parquet "question" "response" "single_turn" Option.none noIoErr
        4096
        [[("question", PyVal.str "q1"), ("response", PyVal.str "a1")],
         [("question", PyVal.str "q2"), ("response", PyVal.str "a2")]]
        Option.none).1 = .ok 2 := by
  have h1 := lazy_open_and_total_count "question" "response" "single_turn"
    Option.none 4096 [] [] rfl
  have h2 := lazy_open_and_total_count "question" "response" "single_turn"
    Option.none 4096
    [[("question", PyVal.str "q1"), ("response", PyVal.str "a1")],
     [("question", PyVal.str "q2"), ("response", PyVal.str "a2")]]
    [.single_turn "q1" "a1", .single_turn "q2" "a2"] rfl
  exact ⟨⟨h1.1, h1.2 rfl⟩, h2.1⟩

end JsonQaToParquet
